import Mathlib

/-!
# Verification of the manifest conversion pipeline

A shallow embedding of `src/app.py` (`convert_manifest_to_template`).

A pandas DataFrame is modelled as a list of column names plus a list of
rows; a row is a total function from column name to cell value, but only
the names listed in `cols` are meaningful (reading an absent column in
pandas raises `KeyError`, modelled with `Except`).  Cell values are
strings, numbers (exact rationals stand in for floats) or the missing
value `NaN`.
-/

set_option autoImplicit false

namespace Manifest

/-- A spreadsheet cell as pandas sees it: a string, a number, or missing
(`NaN`).  Rationals stand in for floating-point numbers; none of the
verified claims depends on float rounding of the division itself. -/
inductive Val where
  | str (s : String)
  | num (q : ℚ)
  | na
  deriving DecidableEq, Repr, Inhabited

/-- Missing-value test (`NaN`), as used by pandas grouping and merging. -/
def Val.isNa : Val → Bool
  | .na => true
  | _ => false

/-- The numeric content of a cell, if it is a number. -/
def Val.asNum : Val → Option ℚ
  | .num q => some q
  | _ => none

/-- A row: a total map from column name to cell value.  Only names in the
the `cols` list of the enclosing table are meaningful. -/
def Row : Type := String → Val

instance : Inhabited Row := ⟨fun _ => Val.na⟩

/-- Functional update of one cell of a row (a pandas column assignment,
restricted to one row). -/
def setCol (r : Row) (c : String) (v : Val) : Row :=
  fun c' => if c' = c then v else r c'

/-- A DataFrame: ordered column names plus the rows. -/
structure DF where
  cols : List String
  rows : List Row

/-- The error a pandas column lookup raises when the column is absent:
`KeyError` carrying the single offending name. -/
inductive PdError where
  | keyError (col : String)
  deriving DecidableEq, Repr

/-! ## Step 2 of `convert_manifest_to_template`: explode the two list
columns (`src/app.py` lines 22 to 30). -/

/-- Python `str(...)` of a cell, as `.astype(str)` produces it: a missing
cell becomes the string `"nan"`.  The exact decimal rendering of a number
is abstracted by `toString`; no claim depends on that rendering. -/
def astype_str : Val → String
  | .str s => s
  | .num q => toString q
  | .na => "nan"

/-- Python `s.split(",")` on the character list of `s`: cut at every
comma, keeping empty pieces; the empty string yields one empty piece. -/
def splitChars : List Char → List (List Char)
  | [] => [[]]
  | c :: cs =>
    if c = ',' then [] :: splitChars cs
    else
      match splitChars cs with
      | [] => [[c]]
      | p :: ps => (c :: p) :: ps

/-- The operation `df[col].astype(str).str.split(",")` applied to one cell
(`src/app.py` lines 22 and 23): stringify, then split on commas.  No
trimming and no discarding of empty pieces happens. -/
def splitCell (v : Val) : List String :=
  (splitChars (astype_str v).data).map (fun l => ⟨l⟩)

/-- Lines 24 to 29 on one source row, given the two already split lists:
`n = min` of the lengths, truncate both lists to `n`, repeat the row `n`
times and overwrite the two cells positionally.  Line 30 sets
`TOTAL QTY = 1` on every produced row. -/
def expandPairs (r : Row) (p h : List String) : List Row :=
  (List.range (min p.length h.length)).map fun i =>
    setCol (setCol (setCol r "PRODUCT DESCRIPTION" (.str (p.getD i "")))
        "HSCODE" (.str (h.getD i ""))) "TOTAL QTY" (.num 1)

/-- The contribution of one source row to `df_expanded`: split both cells,
then pair positionally. -/
def expandRow (r : Row) : List Row :=
  expandPairs r (splitCell (r "PRODUCT DESCRIPTION")) (splitCell (r "HSCODE"))

/-- Column bookkeeping for line 30: `TOTAL QTY` is appended when new. -/
def addQty (cols : List String) : List String :=
  if "TOTAL QTY" ∈ cols then cols else cols ++ ["TOTAL QTY"]

/-- The expanded table `df_expanded` of lines 22 to 30 (success path). -/
def expandDF (df : DF) : DF :=
  ⟨addQty df.cols, df.rows.flatMap expandRow⟩

/-- Lines 22 to 30 with the pandas failure behaviour: the first column
access on an absent column raises `KeyError` with that single name
(line 22 reads `PRODUCT DESCRIPTION`, line 23 reads `HSCODE`). -/
def step2 (df : DF) : Except PdError DF :=
  if "PRODUCT DESCRIPTION" ∉ df.cols then .error (.keyError "PRODUCT DESCRIPTION")
  else if "HSCODE" ∉ df.cols then .error (.keyError "HSCODE")
  else .ok (expandDF df)

/-! ## Step 3: distribute `WEIGHT` and `TOTAL DECLARE VALUE` evenly per
tracking number (`src/app.py` lines 32 to 40). -/

/-- A crude decimal parser standing in for what `pd.to_numeric` accepts
on strings (optional surrounding whitespace, optional sign, digits,
optional fractional digits).  Anything else is unparseable.  The exact
accepted grammar is abstracted; the claims only rely on numbers staying
numbers and unparseable text becoming missing. -/
def parseDecimal (s : String) : Option ℚ :=
  let t := s.trim.data
  let core : List Char → Option ℚ := fun l =>
    let intPart := l.takeWhile Char.isDigit
    let rest := l.dropWhile Char.isDigit
    let fracPart : Option (List Char) :=
      match rest with
      | [] => some []
      | '.' :: fs => if fs.all Char.isDigit then some fs else none
      | _ => none
    match fracPart with
    | none => none
    | some fs =>
      if intPart.isEmpty ∧ fs.isEmpty then none
      else
        let digitsVal : List Char → ℚ := fun ds =>
          ds.foldl (fun acc d => acc * 10 + (d.toNat - '0'.toNat : ℕ)) 0
        some (digitsVal intPart + digitsVal fs / (10 : ℚ) ^ fs.length)
  match t with
  | '-' :: rest => (core rest).map (fun q => -q)
  | '+' :: rest => core rest
  | l => core l

/-- The coercion `pd.to_numeric(cell, errors="coerce")`: numbers pass through, strings
are parsed if possible, everything else (and parse failure) coerces to
missing. -/
def to_numeric : Val → Option ℚ
  | .num q => some q
  | .str s => parseDecimal s
  | .na => none

/-- The coerced cell as stored back into the column. -/
def to_numericVal (v : Val) : Val :=
  match to_numeric v with
  | some q => .num q
  | none => .na

/-- Lines 33 to 35: coerce `WEIGHT` and `TOTAL DECLARE VALUE` to numeric
where (and only where) the column exists. -/
def coerceRow (cols : List String) (r : Row) : Row :=
  let r1 := if "WEIGHT" ∈ cols then setCol r "WEIGHT" (to_numericVal (r "WEIGHT")) else r
  if "TOTAL DECLARE VALUE" ∈ cols then
    setCol r1 "TOTAL DECLARE VALUE" (to_numericVal (r1 "TOTAL DECLARE VALUE"))
  else r1

/-- The grouping key of a row. -/
def keyOf (r : Row) : Val := r "Tracking Number"

/-- The rows of a group: `groupby("Tracking Number")` membership. -/
def rowsWithKey (rows : List Row) (k : Val) : List Row :=
  rows.filter (fun r => decide (keyOf r = k))

/-- The group size `groupby("Tracking Number").size()` for one key (line 36). -/
def countKey (rows : List Row) (k : Val) : ℕ :=
  (rowsWithKey rows k).length

/-- The aggregate `groupby("Tracking Number")[c].transform("first")` for one key:
the first non-missing value of column `c` within the group (pandas
`first` skips nulls); `none` when the whole group is missing. -/
def firstNonNa (rows : List Row) (k : Val) (c : String) : Option ℚ :=
  ((rowsWithKey rows k).filterMap (fun r => (r c).asNum)).head?

/-- The redistributed cell of lines 38 and 39: first non-missing group
value divided by the group size; a missing total stays missing. -/
def redisVal (rows : List Row) (k : Val) (c : String) : Val :=
  match firstNonNa rows k c with
  | none => .na
  | some q => .num (q / (countKey rows k : ℚ))

/-- Lines 33 to 40 on the rows (success path): coerce the two numeric
columns, drop the rows whose tracking number is missing (the inner merge
with the group sizes at line 37 drops `NaN` keys, since `groupby` forms
no group for them), and overwrite the two columns with the first group
value divided by the group size.  The helper `_count` column of lines 36,
37 and 40 is not materialised: the merge preserves the left row order, so
its only observable effect is the divisor and the dropped `NaN` keys. -/
def keptRows (cols : List String) (rows : List Row) : List Row :=
  (rows.map (coerceRow cols)).filter (fun r => !(keyOf r).isNa)

/-- The overwrite of lines 38 and 39 on one merged row. -/
def redisFun (kept : List Row) (r : Row) : Row :=
  setCol (setCol r "WEIGHT" (redisVal kept (keyOf r) "WEIGHT"))
    "TOTAL DECLARE VALUE" (redisVal kept (keyOf r) "TOTAL DECLARE VALUE")

def redisRows (cols : List String) (rows : List Row) : List Row :=
  (keptRows cols rows).map (redisFun (keptRows cols rows))

/-- The redistributed table (success path).  The column list is unchanged
(`_count` is added by the merge and dropped at line 40). -/
def redisDF (df : DF) : DF :=
  ⟨df.cols, redisRows df.cols df.rows⟩

/-- Lines 32 to 40 with pandas failure behaviour: line 36 groups by
`Tracking Number` (`KeyError` when absent), lines 38 and 39 select
`WEIGHT` and then `TOTAL DECLARE VALUE` from the group by
unconditionally, raising `KeyError` when the column is absent — unlike
the guarded coercion loop of lines 33 to 35. -/
def step3 (df : DF) : Except PdError DF :=
  if "Tracking Number" ∉ df.cols then .error (.keyError "Tracking Number")
  else if "WEIGHT" ∉ df.cols then .error (.keyError "WEIGHT")
  else if "TOTAL DECLARE VALUE" ∉ df.cols then .error (.keyError "TOTAL DECLARE VALUE")
  else .ok (redisDF df)

/-! ## Step 4: map to the template columns (`src/app.py` lines 42 to 91). -/

/-- Line 43: the province abbreviation table. -/
def province_abbr : List (String × String) :=
  [("Beijing", "BJ"), ("Tianjin", "TJ"), ("Shanghai", "SH"), ("Chongqing", "CQ"),
   ("Guangdong", "GD"), ("Guangxi", "GX"), ("Guizhou", "GZ"), ("Yunnan", "YN"), ("Hainan", "HI"),
   ("Sichuan", "SC"), ("Jiangsu", "JS"), ("Zhejiang", "ZJ"), ("Anhui", "AH"), ("Fujian", "FJ"),
   ("Jiangxi", "JX"), ("Shandong", "SD"), ("Henan", "HA"), ("Hubei", "HB"), ("Hunan", "HN"),
   ("Hebei", "HE"), ("Shanxi", "SX"), ("Inner Mongolia", "NM"), ("Shaanxi", "SN"), ("Gansu", "GS"),
   ("Qinghai", "QH"), ("Ningxia", "NX"), ("Xinjiang", "XJ"), ("Tibet", "XZ"), ("Heilongjiang", "HL"),
   ("Jilin", "JL"), ("Liaoning", "LN")]

/-- Line 52: the city to province table. -/
def city_to_province : List (String × String) :=
  [("Guangzhou", "Guangdong"), ("Shenzhen", "Guangdong"), ("Foshan", "Guangdong"),
   ("Beijing", "Beijing"), ("Shanghai", "Shanghai"), ("Tianjin", "Tianjin"),
   ("Chengdu", "Sichuan"), ("Wuhan", "Hubei"), ("Hangzhou", "Zhejiang"), ("Nanjing", "Jiangsu")]

/-- Line 57: the fixed destination column list. -/
def template_cols : List String :=
  ["consignor_item_id", "display_id", "receptacle_id", "tracking_number", "sender_name",
   "sender_orgname", "sender_address1", "sender_address2", "sender_district", "sender_city",
   "sender_state", "sender_zip5", "sender_zip4", "sender_country", "sender_phone", "sender_email",
   "sender_url", "recipient_name", "recipient_orgname", "recipient_address1", "recipient_address2",
   "recipient_district", "recipient_city", "recipient_state", "recipient_zip5", "recipient_zip4",
   "recipient_country", "recipient_phone", "recipient_email", "recipient_addr_type", "return_name",
   "return_orgname", "return_address1", "return_address2", "return_district", "return_city",
   "return_state", "return_zip5", "return_zip4", "return_country", "return_phone", "return_email",
   "mail_type", "pieces", "weight", "length", "width", "height", "girth", "value", "machinable",
   "po_box_flag", "gift_flag", "commercial_flag", "customs_quantity_units", "dutiable",
   "duty_pay_by", "product", "description", "url", "sku", "country_of_origin", "manufacturer",
   "harmonization_code", "unit_value", "quantity", "total_value", "total_weight"]

/-- Line 71: destination column to source column. -/
def col_map : List (String × String) :=
  [("receptacle_id", "Bag ID"), ("consignor_item_id", "BG Number"),
   ("tracking_number", "Tracking Number"),
   ("sender_name", "SHIPPER"), ("sender_address1", "SHIPPER ADDRESS"),
   ("sender_city", "CITY NAME SHIPPER"),
   ("sender_country", "COUNTRY CODE SHIPPER"), ("recipient_name", "Consignee Name"),
   ("recipient_address1", "Consignee Address"), ("recipient_city", "Consignee City"),
   ("recipient_state", "Consignee Province"), ("recipient_zip5", "Consignee Post Code"),
   ("recipient_country", "Country of Destination"), ("weight", "WEIGHT"),
   ("value", "TOTAL DECLARE VALUE"),
   ("description", "PRODUCT DESCRIPTION"), ("harmonization_code", "HSCODE"),
   ("unit_value", "TOTAL DECLARE VALUE"),
   ("total_value", "TOTAL DECLARE VALUE"), ("total_weight", "WEIGHT")]

/-- Line 86: the structural columns that default to the literal 1. -/
def structuralCols : List String :=
  ["pieces", "length", "width", "height", "girth", "quantity"]

/-- The lookup `series.map(dict)` on one cell: a string key is looked up, a miss or
a non-string (including missing) yields `NaN` — never an error. -/
def mapDict (d : List (String × String)) (v : Val) : Val :=
  match v with
  | .str s =>
    match d.lookup s with
    | some t => .str t
    | none => .na
  | _ => .na

/-- Lines 82 to 90 on one row: copy mapped columns, default structural
columns to 1, everything else to the empty string; then line 90
overwrites `sender_state` with the two-stage lookup applied to the copied
`sender_city` (which is the source `CITY NAME SHIPPER`). -/
def projectRow (r : Row) : Row := fun c =>
  if c = "sender_state" then
    mapDict province_abbr (mapDict city_to_province (r "CITY NAME SHIPPER"))
  else
    match col_map.lookup c with
    | some src => r src
    | none => if c ∈ structuralCols then .num 1 else .str ""

/-- The projected table (success path). -/
def projDF (df : DF) : DF :=
  ⟨template_cols, df.rows.map projectRow⟩

/-- The first mapped source column that is absent from the input, in
template-column order: the loop of lines 82 to 89 reads
`df_expanded[src]` and the first absent one raises `KeyError`. -/
def firstMissingSrc (cols : List String) : Option String :=
  template_cols.findSome? fun c =>
    match col_map.lookup c with
    | some src => if src ∈ cols then none else some src
    | none => none

/-- Lines 42 to 91 with pandas failure behaviour. -/
def step4 (df : DF) : Except PdError DF :=
  match firstMissingSrc df.cols with
  | some src => .error (.keyError src)
  | none => .ok (projDF df)

/-- The whole of `convert_manifest_to_template` after the spreadsheet has
been read into a table (line 19): explode, redistribute, project.  Any
`KeyError` aborts the conversion with no partial result (the exception
propagates to the generic handler at lines 111 and 112). -/
def convert (df : DF) : Except PdError DF :=
  step2 df >>= step3 >>= step4

/-- The expand-and-redistribute pipeline (steps 2 and 3): its success
value is the Item Row table the spec describes. -/
def step23 (df : DF) : Except PdError DF :=
  step2 df >>= step3

/-! ## Definitions taken from the words of the spec (for comparison) -/

/-- Strip surrounding whitespace from a character list. -/
def trimChars (l : List Char) : List Char :=
  ((l.dropWhile Char.isWhitespace).reverse.dropWhile Char.isWhitespace).reverse

/-- Modelled from the spec (section 4.1 step 1): split on comma, trim
surrounding whitespace from each piece, discard pieces that are empty
after trimming; a missing cell parses to the empty list.  This is the
parse the spec describes, to be compared with `splitCell`. -/
def specParseCell : Val → List String
  | .na => []
  | v =>
    (((splitChars (astype_str v).data).map trimChars).filter
      (fun l => !l.isEmpty)).map (fun l => ⟨l⟩)

/-- Comma-join, the inverse direction of the split: used to state that
`splitCell` keeps every piece verbatim. -/
def joinCells : List String → String
  | [] => ""
  | [p] => p
  | p :: ps => p ++ "," ++ joinCells ps

/-- Comma-join on character lists. -/
def joinChars : List (List Char) → List Char
  | [] => []
  | [p] => p
  | p :: ps => p ++ ',' :: joinChars ps

/-- Modelled from the spec (section 3, Shipment Aggregate): the first
non-missing coerced value of column `c` among the pre-expansion source
rows sharing the identifier `k`. -/
def specShipmentTotal (df : DF) (c : String) (k : Val) : Option ℚ :=
  ((df.rows.filter (fun r => decide (keyOf r = k))).filterMap
    (fun r => to_numeric (r c))).head?

/-- Modelled from the spec (section 3, Shipment Aggregate): the number of
Item Rows produced for identifier `k` after expansion. -/
def specItemCount (df : DF) (k : Val) : ℕ :=
  ((df.rows.filter (fun r => decide (keyOf r = k))).map
    (fun r => (expandRow r).length)).sum

/-- Modelled from the spec (section 4.2 step 4): rounding to `n` decimal
places, used only to compare the spec text with the code, which does not
round. -/
def roundTo (n : ℕ) (q : ℚ) : ℚ :=
  (round (q * (10 : ℚ) ^ n) : ℚ) / (10 : ℚ) ^ n

/-- Modelled from the spec (section 4.1): the first required column
missing from the input, if any, in the order the pipeline accesses them. -/
def firstMissingRequired (cols : List String) : Option String :=
  if "PRODUCT DESCRIPTION" ∉ cols then some "PRODUCT DESCRIPTION"
  else if "HSCODE" ∉ cols then some "HSCODE"
  else if "Tracking Number" ∉ cols then some "Tracking Number"
  else none

/-! ## Abbreviations for rows of intermediate tables -/

/-- Row `i` of the redistributed Item Row table of `df`. -/
def outRow (df : DF) (i : ℕ) : Row :=
  (redisDF (expandDF df)).rows.getD i default

/-- Row `i` of the projected template table of `df`. -/
def templateRow (df : DF) (i : ℕ) : Row :=
  (projDF df).rows.getD i default

/-- Row `i` of `df` itself. -/
def srcRow (df : DF) (i : ℕ) : Row :=
  df.rows.getD i default

/-! ## Concrete tables used as witnesses and counterexamples -/

/-- A table with only a tracking-number column: both required text
columns are absent. -/
def c1df : DF := ⟨["Tracking Number"], []⟩

/-- A table missing only `HSCODE`. -/
def c1wdf : DF := ⟨["PRODUCT DESCRIPTION", "Tracking Number"], []⟩

/-- One shipment, three items, known unit totals. -/
def row2 : Row := fun c =>
  if c = "Tracking Number" then .str "T1"
  else if c = "PRODUCT DESCRIPTION" then .str "a,b,c"
  else if c = "HSCODE" then .str "1,2,3"
  else if c = "WEIGHT" then .num 1
  else if c = "TOTAL DECLARE VALUE" then .num 1
  else .na

def df2 : DF :=
  ⟨["Tracking Number", "PRODUCT DESCRIPTION", "HSCODE", "WEIGHT", "TOTAL DECLARE VALUE"],
   [row2]⟩

/-- A complete row but no numeric columns in the table. -/
def row5 : Row := fun c =>
  if c = "Tracking Number" then .str "T1"
  else if c = "PRODUCT DESCRIPTION" then .str "pen"
  else if c = "HSCODE" then .str "9608"
  else .na

/-- The numeric columns are entirely absent. -/
def c5df : DF := ⟨["Tracking Number", "PRODUCT DESCRIPTION", "HSCODE"], [row5]⟩

/-- A table with `WEIGHT` present but `TOTAL DECLARE VALUE` absent. -/
def c5df2 : DF := ⟨["Tracking Number", "PRODUCT DESCRIPTION", "HSCODE", "WEIGHT"], [row5]⟩

/-- Mismatched list lengths: three descriptions, two codes. -/
def row6 : Row := fun c =>
  if c = "Tracking Number" then .str "T1"
  else if c = "PRODUCT DESCRIPTION" then .str "A, B, C"
  else if c = "HSCODE" then .str "6403, 6505"
  else .na

def df6 : DF := ⟨["Tracking Number", "PRODUCT DESCRIPTION", "HSCODE"], [row6]⟩

/-- Two source rows for the same shipment with different weights: the
first (2) must win over the later duplicate (9); declared value is
missing on both rows. -/
def row7a : Row := fun c =>
  if c = "Tracking Number" then .str "T1"
  else if c = "PRODUCT DESCRIPTION" then .str "a,b"
  else if c = "HSCODE" then .str "1,2"
  else if c = "WEIGHT" then .num 2
  else .na

def row7b : Row := fun c =>
  if c = "Tracking Number" then .str "T1"
  else if c = "PRODUCT DESCRIPTION" then .str "c"
  else if c = "HSCODE" then .str "3"
  else if c = "WEIGHT" then .num 9
  else .na

def df7 : DF :=
  ⟨["Tracking Number", "PRODUCT DESCRIPTION", "HSCODE", "WEIGHT", "TOTAL DECLARE VALUE"],
   [row7a, row7b]⟩

/-- A row carrying every source column the template mapping reads. -/
def row8 : Row := fun c =>
  if c = "Bag ID" then .str "BAG1"
  else if c = "BG Number" then .str "BG1"
  else if c = "Tracking Number" then .str "T1"
  else if c = "SHIPPER" then .str "ACME"
  else if c = "SHIPPER ADDRESS" then .str "1 Road"
  else if c = "CITY NAME SHIPPER" then .str "Shenzhen"
  else if c = "COUNTRY CODE SHIPPER" then .str "CN"
  else if c = "Consignee Name" then .str "Bob"
  else if c = "Consignee Address" then .str "2 Ave"
  else if c = "Consignee City" then .str "NYC"
  else if c = "Consignee Province" then .str "NY"
  else if c = "Consignee Post Code" then .str "10001"
  else if c = "Country of Destination" then .str "US"
  else if c = "WEIGHT" then .num 1
  else if c = "TOTAL DECLARE VALUE" then .num 15
  else if c = "PRODUCT DESCRIPTION" then .str "Shoes"
  else if c = "HSCODE" then .str "6403"
  else .na

def df8 : DF :=
  ⟨["Bag ID", "BG Number", "Tracking Number", "SHIPPER", "SHIPPER ADDRESS",
    "CITY NAME SHIPPER", "COUNTRY CODE SHIPPER", "Consignee Name", "Consignee Address",
    "Consignee City", "Consignee Province", "Consignee Post Code", "Country of Destination",
    "WEIGHT", "TOTAL DECLARE VALUE", "PRODUCT DESCRIPTION", "HSCODE"],
   [row8]⟩

/-- One row whose two list cells are missing: they stringify to `"nan"`
and still produce one Item Row. -/
def df10 : DF := ⟨["PRODUCT DESCRIPTION", "HSCODE"], [default]⟩

/-! ### Basic facts about the split -/

theorem splitChars_ne_nil (l : List Char) : splitChars l ≠ [] := by
  induction l with
  | nil => simp [splitChars]
  | cons c cs ih =>
    simp only [splitChars]
    split
    · simp
    · cases h : splitChars cs with
      | nil => simp
      | cons p ps => simp

theorem splitCell_ne_nil (v : Val) : splitCell v ≠ [] := by
  have h := splitChars_ne_nil (astype_str v).data
  simp [splitCell, h]

theorem length_splitCell_pos (v : Val) : 0 < (splitCell v).length :=
  List.length_pos.mpr (splitCell_ne_nil v)

theorem joinChars_splitChars (l : List Char) : joinChars (splitChars l) = l := by
  induction l with
  | nil => simp [splitChars, joinChars]
  | cons c cs ih =>
    simp only [splitChars]
    by_cases hc : c = ','
    · subst hc
      rw [if_pos rfl]
      have hne := splitChars_ne_nil cs
      cases h : splitChars cs with
      | nil => exact absurd h hne
      | cons p ps =>
        rw [h] at ih
        simp [joinChars, ih]
    · rw [if_neg hc]
      cases h : splitChars cs with
      | nil => exact absurd h (splitChars_ne_nil cs)
      | cons p ps =>
        rw [h] at ih
        cases ps with
        | nil => simpa [joinChars] using congrArg (c :: ·) ih
        | cons q qs => simpa [joinChars] using congrArg (c :: ·) ih

theorem splitChars_no_comma (l : List Char) :
    ∀ p ∈ splitChars l, ',' ∉ p := by
  induction l with
  | nil => simp [splitChars]
  | cons c cs ih =>
    intro p hp
    simp only [splitChars] at hp
    by_cases hc : c = ','
    · subst hc
      rw [if_pos rfl] at hp
      rcases List.mem_cons.mp hp with h | h
      · subst h; simp
      · exact ih p h
    · rw [if_neg hc] at hp
      cases h : splitChars cs with
      | nil => exact absurd h (splitChars_ne_nil cs)
      | cons q qs =>
        rw [h] at hp
        rcases List.mem_cons.mp hp with h1 | h1
        · subst h1
          intro hmem
          rcases List.mem_cons.mp hmem with h2 | h2
          · exact hc h2.symm
          · exact ih q (h ▸ List.mem_cons_self q qs) h2
        · exact ih p (h ▸ List.mem_cons_of_mem q h1)

theorem joinCells_map_mk (ps : List (List Char)) :
    joinCells (ps.map (fun l => ⟨l⟩)) = ⟨joinChars ps⟩ := by
  induction ps with
  | nil => rfl
  | cons p rest ih =>
    cases rest with
    | nil => rfl
    | cons q qs =>
      show (⟨p⟩ : String) ++ "," ++ joinCells ((q :: qs).map (fun l => ⟨l⟩)) = _
      rw [ih]
      apply String.ext
      show ((⟨p⟩ : String) ++ "," ++ (⟨joinChars (q :: qs)⟩ : String)).data = _
      rw [String.data_append, String.data_append]
      have hcomma : ("," : String).data = [','] := by decide
      rw [hcomma]
      show p ++ [','] ++ joinChars (q :: qs) = joinChars (p :: q :: qs)
      simp [joinChars]

/-- The split keeps every piece verbatim: joining the pieces with commas
reproduces the stringified cell. -/
theorem joinCells_splitCell (v : Val) :
    joinCells (splitCell v) = astype_str v := by
  rw [splitCell, joinCells_map_mk, joinChars_splitChars]

theorem splitCell_no_comma (v : Val) :
    ∀ p ∈ splitCell v, ',' ∉ p.data := by
  intro p hp
  simp only [splitCell, List.mem_map] at hp
  obtain ⟨l, hl, rfl⟩ := hp
  exact splitChars_no_comma _ l hl

/-! ### Cell update lemmas -/

theorem setCol_same (r : Row) (c : String) (v : Val) : setCol r c v c = v := by
  simp [setCol]

theorem setCol_other (r : Row) (c c' : String) (v : Val) (h : c' ≠ c) :
    setCol r c v c' = r c' := by
  simp [setCol, h]

/-! ### Expansion lemmas -/

theorem expandPairs_length (r : Row) (p h : List String) :
    (expandPairs r p h).length = min p.length h.length := by
  simp [expandPairs]

theorem expandRow_length (r : Row) :
    (expandRow r).length =
      min (splitCell (r "PRODUCT DESCRIPTION")).length (splitCell (r "HSCODE")).length := by
  simp [expandRow, expandPairs]

theorem expandRow_length_pos (r : Row) : 0 < (expandRow r).length := by
  rw [expandRow_length]
  exact lt_min (length_splitCell_pos _) (length_splitCell_pos _)

theorem getD_map_of_lt {α β : Type} (l : List α) (f : α → β) (i : ℕ) (d : β) (d' : α)
    (h : i < l.length) : (l.map f).getD i d = f (l.getD i d') := by
  rw [List.getD_eq_getElem?_getD, List.getElem?_map, List.getD_eq_getElem?_getD,
    List.getElem?_eq_getElem h]
  simp

theorem range_getD (n i : ℕ) (h : i < n) : (List.range n).getD i 0 = i := by
  rw [List.getD_eq_getElem?_getD, List.getElem?_range h]
  rfl

theorem expandPairs_getD (r : Row) (p h : List String) (i : ℕ)
    (hi : i < min p.length h.length) :
    (expandPairs r p h).getD i default =
      setCol (setCol (setCol r "PRODUCT DESCRIPTION" (.str (p.getD i "")))
        "HSCODE" (.str (h.getD i ""))) "TOTAL QTY" (.num 1) := by
  unfold expandPairs
  rw [getD_map_of_lt _ _ _ _ 0 (by simpa using hi), range_getD _ _ (by simpa using hi)]

theorem mem_expandPairs (r r' : Row) (p h : List String) (hr : r' ∈ expandPairs r p h) :
    ∃ i, r' = setCol (setCol (setCol r "PRODUCT DESCRIPTION" (.str (p.getD i "")))
        "HSCODE" (.str (h.getD i ""))) "TOTAL QTY" (.num 1) := by
  simp only [expandPairs, List.mem_map, List.mem_range] at hr
  obtain ⟨i, _, rfl⟩ := hr
  exact ⟨i, rfl⟩

/-- Every expanded row carries all columns other than the two exploded
ones and the quantity column unchanged from its source row. -/
theorem mem_expandRow_other (r r' : Row) (hr : r' ∈ expandRow r) (c : String)
    (h1 : c ≠ "PRODUCT DESCRIPTION") (h2 : c ≠ "HSCODE") (h3 : c ≠ "TOTAL QTY") :
    r' c = r c := by
  obtain ⟨i, rfl⟩ := mem_expandPairs r r' _ _ hr
  rw [setCol_other _ _ _ _ h3, setCol_other _ _ _ _ h2, setCol_other _ _ _ _ h1]

theorem mem_expandRow_qty (r r' : Row) (hr : r' ∈ expandRow r) :
    r' "TOTAL QTY" = .num 1 := by
  obtain ⟨i, rfl⟩ := mem_expandPairs r r' _ _ hr
  exact setCol_same _ _ _

theorem keyOf_mem_expandRow (r r' : Row) (hr : r' ∈ expandRow r) :
    keyOf r' = keyOf r :=
  mem_expandRow_other r r' hr _ (by decide) (by decide) (by decide)

/-! ### Coercion lemmas -/

theorem to_numericVal_asNum (v : Val) : (to_numericVal v).asNum = to_numeric v := by
  unfold to_numericVal
  cases h : to_numeric v <;> simp [Val.asNum]

theorem coerceRow_weight (cols : List String) (r : Row) (hW : "WEIGHT" ∈ cols) :
    coerceRow cols r "WEIGHT" = to_numericVal (r "WEIGHT") := by
  simp only [coerceRow, if_pos hW]
  split
  · rw [setCol_other _ _ _ _ (by decide), setCol_same]
  · rw [setCol_same]

theorem coerceRow_tdv (cols : List String) (r : Row)
    (hT : "TOTAL DECLARE VALUE" ∈ cols) :
    coerceRow cols r "TOTAL DECLARE VALUE" = to_numericVal (r "TOTAL DECLARE VALUE") := by
  simp only [coerceRow, if_pos hT]
  split
  · rw [setCol_same, setCol_other _ _ _ _ (by decide)]
  · rw [setCol_same]

theorem coerceRow_other (cols : List String) (r : Row) (c : String)
    (h1 : c ≠ "WEIGHT") (h2 : c ≠ "TOTAL DECLARE VALUE") :
    coerceRow cols r c = r c := by
  simp only [coerceRow]
  split
  · rw [setCol_other _ _ _ _ h2]
    split
    · rw [setCol_other _ _ _ _ h1]
    · rfl
  · split
    · rw [setCol_other _ _ _ _ h1]
    · rfl

theorem keyOf_coerceRow (cols : List String) (r : Row) :
    keyOf (coerceRow cols r) = keyOf r :=
  coerceRow_other cols r _ (by decide) (by decide)

/-! ### Grouping lemmas: the group aggregates computed on the expanded
table coincide with first-seen aggregates on the pre-expansion source. -/

theorem rowsWithKey_map_coerce (cols : List String) (l : List Row) (k : Val) :
    rowsWithKey (l.map (coerceRow cols)) k = (rowsWithKey l k).map (coerceRow cols) := by
  unfold rowsWithKey
  rw [List.filter_map]
  congr 1
  apply List.filter_congr
  intro r _
  simp [Function.comp, keyOf_coerceRow]

theorem rowsWithKey_filter_nonNa (l : List Row) (k : Val) (hk : k.isNa = false) :
    rowsWithKey (l.filter (fun r => !(keyOf r).isNa)) k = rowsWithKey l k := by
  unfold rowsWithKey
  rw [List.filter_filter]
  apply List.filter_congr
  intro r _
  by_cases h : keyOf r = k
  · simp [h, hk]
  · simp [h]

theorem filter_expandRow_key (r : Row) (k : Val) :
    (expandRow r).filter (fun r' => decide (keyOf r' = k)) =
      if keyOf r = k then expandRow r else [] := by
  by_cases h : keyOf r = k
  · rw [if_pos h]
    apply List.filter_eq_self.mpr
    intro r' hr'
    simp [keyOf_mem_expandRow r r' hr', h]
  · rw [if_neg h]
    apply List.filter_eq_nil_iff.mpr
    intro r' hr'
    simp [keyOf_mem_expandRow r r' hr', h]

theorem rowsWithKey_flatMap (l : List Row) (k : Val) :
    rowsWithKey (l.flatMap expandRow) k =
      (l.filter (fun r => decide (keyOf r = k))).flatMap expandRow := by
  show (l.flatMap expandRow).filter _ = _
  rw [List.filter_flatMap]
  induction l with
  | nil => simp
  | cons r rs ih =>
    rw [List.flatMap_cons, List.filter_cons, filter_expandRow_key]
    by_cases h : keyOf r = k
    · simp [h, ih, List.flatMap_cons]
    · simp [h, ih]

theorem head?_filterMap_flatMap (l : List Row) (g : Row → Option ℚ)
    (hg : ∀ r r', r' ∈ expandRow r → g r' = g r) :
    ((l.flatMap expandRow).filterMap g).head? = (l.filterMap g).head? := by
  induction l with
  | nil => simp
  | cons r rs ih =>
    rw [List.flatMap_cons, List.filterMap_append, List.filterMap_cons]
    cases h : g r with
    | none =>
      have hblock : (expandRow r).filterMap g = [] := by
        apply List.filterMap_eq_nil_iff.mpr
        intro r' hr'
        rw [hg r r' hr', h]
      rw [hblock, List.nil_append, ih]
    | some q =>
      obtain ⟨r0, rest, he⟩ : ∃ r0 rest, expandRow r = r0 :: rest := by
        cases he : expandRow r with
        | nil =>
          have := expandRow_length_pos r
          rw [he] at this
          simp at this
        | cons r0 rest => exact ⟨r0, rest, rfl⟩
      have hr0 : g r0 = some q := by
        rw [hg r r0 (he ▸ List.mem_cons_self r0 rest), h]
      rw [he, List.filterMap_cons, hr0]
      simp

/-- The first non-missing coerced group value computed on the expanded,
coerced, `NaN`-key-filtered table equals the first-seen aggregate over
the pre-expansion source rows. -/
theorem firstNonNa_kept (cols : List String) (l : List Row) (k : Val) (c : String)
    (hk : k.isNa = false)
    (hcoerce : ∀ r, coerceRow cols r c = to_numericVal (r c))
    (hexp : ∀ r r', r' ∈ expandRow r → r' c = r c) :
    firstNonNa (keptRows cols (l.flatMap expandRow)) k c =
      ((l.filter (fun r => decide (keyOf r = k))).filterMap
        (fun r => to_numeric (r c))).head? := by
  unfold firstNonNa keptRows
  rw [rowsWithKey_filter_nonNa _ _ hk, rowsWithKey_map_coerce, rowsWithKey_flatMap,
    List.filterMap_map]
  have hfun : ((fun r : Row => (r c).asNum) ∘ coerceRow cols) =
      (fun r : Row => to_numeric (r c)) := by
    funext r
    simp only [Function.comp]
    rw [hcoerce r, to_numericVal_asNum]
  rw [hfun]
  exact head?_filterMap_flatMap _ _ (fun r r' hr' => by rw [hexp r r' hr'])

/-- The group size computed on the expanded, coerced, filtered table is
the number of Item Rows the identifier produced. -/
theorem countKey_kept (cols : List String) (l : List Row) (k : Val)
    (hk : k.isNa = false) :
    countKey (keptRows cols (l.flatMap expandRow)) k =
      ((l.filter (fun r => decide (keyOf r = k))).map
        (fun r => (expandRow r).length)).sum := by
  unfold countKey keptRows
  rw [rowsWithKey_filter_nonNa _ _ hk, rowsWithKey_map_coerce, rowsWithKey_flatMap,
    List.length_map, List.length_flatMap]
  rfl

/-! ### Column bookkeeping -/

theorem mem_addQty (cols : List String) (c : String) (h : c ∈ cols) : c ∈ addQty cols := by
  unfold addQty
  split
  · exact h
  · exact List.mem_append_left _ h

theorem qty_mem_addQty (cols : List String) : "TOTAL QTY" ∈ addQty cols := by
  unfold addQty
  split
  · assumption
  · simp

/-! ### Pipeline success equations -/

theorem step2_ok (df : DF) (hPD : "PRODUCT DESCRIPTION" ∈ df.cols)
    (hHS : "HSCODE" ∈ df.cols) : step2 df = .ok (expandDF df) := by
  unfold step2
  rw [if_neg (not_not_intro hPD), if_neg (not_not_intro hHS)]

theorem step3_ok (df : DF) (hTN : "Tracking Number" ∈ df.cols)
    (hW : "WEIGHT" ∈ df.cols) (hT : "TOTAL DECLARE VALUE" ∈ df.cols) :
    step3 df = .ok (redisDF df) := by
  unfold step3
  rw [if_neg (not_not_intro hTN), if_neg (not_not_intro hW), if_neg (not_not_intro hT)]

theorem step23_ok (df : DF) (hPD : "PRODUCT DESCRIPTION" ∈ df.cols)
    (hHS : "HSCODE" ∈ df.cols) (hTN : "Tracking Number" ∈ df.cols)
    (hW : "WEIGHT" ∈ df.cols) (hT : "TOTAL DECLARE VALUE" ∈ df.cols) :
    step23 df = .ok (redisDF (expandDF df)) := by
  unfold step23
  rw [step2_ok df hPD hHS]
  show step3 (expandDF df) = _
  exact step3_ok _ (mem_addQty _ _ hTN) (mem_addQty _ _ hW) (mem_addQty _ _ hT)

/-! ### Per-row characterization of the redistributed table -/

theorem getD_mem {α : Type} (l : List α) (i : ℕ) (d : α) (h : i < l.length) :
    l.getD i d ∈ l := by
  rw [List.getD_eq_getElem?_getD, List.getElem?_eq_getElem h]
  exact List.getElem_mem h

theorem redisFun_weight (kept : List Row) (r : Row) :
    redisFun kept r "WEIGHT" = redisVal kept (keyOf r) "WEIGHT" := by
  unfold redisFun
  rw [setCol_other _ _ _ _ (by decide), setCol_same]

theorem redisFun_tdv (kept : List Row) (r : Row) :
    redisFun kept r "TOTAL DECLARE VALUE" = redisVal kept (keyOf r) "TOTAL DECLARE VALUE" := by
  unfold redisFun
  rw [setCol_same]

theorem redisFun_other (kept : List Row) (r : Row) (c : String)
    (h1 : c ≠ "WEIGHT") (h2 : c ≠ "TOTAL DECLARE VALUE") :
    redisFun kept r c = r c := by
  unfold redisFun
  rw [setCol_other _ _ _ _ h2, setCol_other _ _ _ _ h1]

theorem keyOf_redisFun (kept : List Row) (r : Row) :
    keyOf (redisFun kept r) = keyOf r :=
  redisFun_other kept r _ (by decide) (by decide)

theorem mem_keptRows_nonNa (cols : List String) (rows : List Row) (r : Row)
    (hr : r ∈ keptRows cols rows) : (keyOf r).isNa = false := by
  unfold keptRows at hr
  have := (List.mem_filter.mp hr).2
  simpa using this

theorem redisRows_getD (cols : List String) (rs : List Row) (i : ℕ)
    (hi : i < (redisRows cols rs).length) :
    (redisRows cols rs).getD i default =
      redisFun (keptRows cols rs) ((keptRows cols rs).getD i default) := by
  unfold redisRows at hi ⊢
  exact getD_map_of_lt _ _ _ _ default (by simpa using hi)

/-- The central characterization: cell `c` (one of the two numeric
columns) of row `i` of the redistributed table equals the first-seen
pre-expansion shipment total divided by the number of Item Rows of that
shipment, missing if the total is missing. -/
theorem redisDF_cell (df : DF) (i : ℕ) (hi : i < (redisDF (expandDF df)).rows.length)
    (c : String) (hcase : c = "WEIGHT" ∨ c = "TOTAL DECLARE VALUE") (hc : c ∈ df.cols) :
    (redisDF (expandDF df)).rows.getD i default c =
      (match specShipmentTotal df c (keyOf ((redisDF (expandDF df)).rows.getD i default)) with
        | none => Val.na
        | some q =>
          Val.num (q / (specItemCount df
            (keyOf ((redisDF (expandDF df)).rows.getD i default)) : ℚ))) := by
  have hrows : (redisDF (expandDF df)).rows =
      redisRows (addQty df.cols) (df.rows.flatMap expandRow) := rfl
  rw [hrows] at hi ⊢
  rw [redisRows_getD _ _ _ hi]
  have hi' : i < (keptRows (addQty df.cols) (df.rows.flatMap expandRow)).length := by
    unfold redisRows at hi
    simpa using hi
  have hr0 : (keptRows (addQty df.cols) (df.rows.flatMap expandRow)).getD i default ∈
      keptRows (addQty df.cols) (df.rows.flatMap expandRow) := getD_mem _ _ _ hi'
  have hkna := mem_keptRows_nonNa _ _ _ hr0
  have hcmem : c ∈ addQty df.cols := mem_addQty _ _ hc
  rcases hcase with rfl | rfl
  · rw [redisFun_weight, keyOf_redisFun]
    unfold redisVal
    rw [firstNonNa_kept _ _ _ _ hkna
        (fun r => coerceRow_weight _ r hcmem)
        (fun r r' hr' => mem_expandRow_other r r' hr' _ (by decide) (by decide) (by decide)),
      countKey_kept _ _ _ hkna]
    rfl
  · rw [redisFun_tdv, keyOf_redisFun]
    unfold redisVal
    rw [firstNonNa_kept _ _ _ _ hkna
        (fun r => coerceRow_tdv _ r hcmem)
        (fun r r' hr' => mem_expandRow_other r r' hr' _ (by decide) (by decide) (by decide)),
      countKey_kept _ _ _ hkna]
    rfl

/-- Columns other than the two numeric ones survive redistribution with
the value they had on the expanded row. -/
theorem redisDF_other_cell (df : DF) (i : ℕ)
    (hi : i < (redisDF (expandDF df)).rows.length) (c : String)
    (h1 : c ≠ "WEIGHT") (h2 : c ≠ "TOTAL DECLARE VALUE") :
    ∃ r1, r1 ∈ (expandDF df).rows ∧
      (redisDF (expandDF df)).rows.getD i default c = r1 c := by
  have hrows : (redisDF (expandDF df)).rows =
      redisRows (addQty df.cols) (df.rows.flatMap expandRow) := rfl
  rw [hrows] at hi ⊢
  rw [redisRows_getD _ _ _ hi]
  have hi' : i < (keptRows (addQty df.cols) (df.rows.flatMap expandRow)).length := by
    unfold redisRows at hi
    simpa using hi
  have hr0 : (keptRows (addQty df.cols) (df.rows.flatMap expandRow)).getD i default ∈
      keptRows (addQty df.cols) (df.rows.flatMap expandRow) := getD_mem _ _ _ hi'
  unfold keptRows at hr0
  have hr0' := (List.mem_filter.mp hr0).1
  obtain ⟨r1, hr1, hr1eq⟩ := List.mem_map.mp hr0'
  refine ⟨r1, hr1, ?_⟩
  rw [redisFun_other _ _ _ h1 h2]
  unfold keptRows
  rw [← hr1eq, coerceRow_other _ _ _ h1 h2]

theorem length_le_flatMap (l : List Row) : l.length ≤ (l.flatMap expandRow).length := by
  induction l with
  | nil => simp
  | cons r rs ih =>
    rw [List.flatMap_cons, List.length_append, List.length_cons]
    have := expandRow_length_pos r
    omega

theorem not_mem_addQty (cols : List String) (c : String) (hq : c ≠ "TOTAL QTY")
    (hc : c ∉ cols) : c ∉ addQty cols := by
  unfold addQty
  split
  · exact hc
  · intro hmem
    rcases List.mem_append.mp hmem with h | h
    · exact hc h
    · simp at h
      exact hq h

/-! ## The claims -/

/-- C3 (counterexample): the cell parse does not trim the pieces, does
not discard empty pieces, and a missing cell parses to `["nan"]`, not to
the empty list — on `" a , b "` the code yields the untrimmed pieces
while the parse the claim describes yields the trimmed ones. -/
theorem C3_parse_counterexample :
    splitCell (Val.str " a , b ") = [" a ", " b "] ∧
    specParseCell (Val.str " a , b ") = ["a", "b"] ∧
    [" a ", " b "] ≠ ["a", "b"] ∧
    splitCell Val.na = ["nan"] ∧
    specParseCell Val.na = [] := by
  refine ⟨by decide, by decide, by decide, by decide, by decide⟩

/-- C3 (amended): each of the two list cells is stringified (a missing
cell becomes the string `"nan"`) and split on commas with every piece
kept verbatim: no piece contains a comma, the pieces comma-joined
reproduce the stringified cell (so nothing is trimmed or discarded), and
the parse never yields the empty list. -/
theorem C3_split_keeps_pieces_verbatim (v : Val) :
    splitCell v ≠ [] ∧
    (∀ p ∈ splitCell v, ',' ∉ p.data) ∧
    joinCells (splitCell v) = astype_str v ∧
    splitCell Val.na = ["nan"] :=
  ⟨splitCell_ne_nil v, splitCell_no_comma v, joinCells_splitCell v, by decide⟩

/-- C3 (witness): the amended claim evaluated on the cell `"x ,y"`. -/
theorem C3_split_witness :
    splitCell (Val.str "x ,y") ≠ [] ∧
    ',' ∉ ("x " : String).data ∧
    joinCells (splitCell (Val.str "x ,y")) = astype_str (Val.str "x ,y") := by
  have h := C3_split_keeps_pieces_verbatim (Val.str "x ,y")
  exact ⟨h.1, h.2.1 "x " (by decide), h.2.2.1⟩

/-- C4: a source row one of whose two lists is empty contributes zero
Item Rows — the expansion mechanism of lines 24 to 27 repeats the row
`min` times, and the `min` is zero. -/
theorem C4_empty_list_drops_row (r : Row) (p h : List String)
    (hempty : p = [] ∨ h = []) : expandPairs r p h = [] := by
  rcases hempty with rfl | rfl
  · simp [expandPairs]
  · simp [expandPairs]

/-- C4 (witness): an empty description list against two codes yields no
Item Rows. -/
theorem C4_empty_list_witness : expandPairs default [] ["6403", "6505"] = [] :=
  C4_empty_list_drops_row default [] ["6403", "6505"] (Or.inl rfl)

/-- C6: each source row contributes exactly `min(a, b)` Item Rows, item
`i` carrying exactly the `i`-th description and the `i`-th code; the
tail of the longer list is discarded. -/
theorem C6_pairing_truncation (df : DF) (hPD : "PRODUCT DESCRIPTION" ∈ df.cols)
    (hHS : "HSCODE" ∈ df.cols) (r : Row) (i : ℕ)
    (hi : i < min (splitCell (r "PRODUCT DESCRIPTION")).length
      (splitCell (r "HSCODE")).length) :
    step2 df = .ok (expandDF df) ∧
    (expandDF df).rows = df.rows.flatMap expandRow ∧
    (expandRow r).length =
      min (splitCell (r "PRODUCT DESCRIPTION")).length (splitCell (r "HSCODE")).length ∧
    ((expandRow r).getD i default) "PRODUCT DESCRIPTION" =
      .str ((splitCell (r "PRODUCT DESCRIPTION")).getD i "") ∧
    ((expandRow r).getD i default) "HSCODE" =
      .str ((splitCell (r "HSCODE")).getD i "") := by
  refine ⟨step2_ok df hPD hHS, rfl, expandRow_length r, ?_, ?_⟩
  · unfold expandRow
    rw [expandPairs_getD _ _ _ _ hi, setCol_other _ _ _ _ (by decide),
      setCol_other _ _ _ _ (by decide), setCol_same]
  · unfold expandRow
    rw [expandPairs_getD _ _ _ _ hi, setCol_other _ _ _ _ (by decide), setCol_same]

/-- C6 (witness): three descriptions against two codes yield two Item
Rows; item 1 pairs the second description with the second code. -/
theorem C6_pairing_witness :
    step2 df6 = .ok (expandDF df6) ∧
    (expandDF df6).rows = df6.rows.flatMap expandRow ∧
    (expandRow row6).length =
      min (splitCell (row6 "PRODUCT DESCRIPTION")).length
        (splitCell (row6 "HSCODE")).length ∧
    ((expandRow row6).getD 1 default) "PRODUCT DESCRIPTION" =
      .str ((splitCell (row6 "PRODUCT DESCRIPTION")).getD 1 "") ∧
    ((expandRow row6).getD 1 default) "HSCODE" =
      .str ((splitCell (row6 "HSCODE")).getD 1 "") :=
  C6_pairing_truncation df6 (by decide) (by decide) row6 1 (by decide)

/-- C10: every source row yields at least one Item Row, because every
cell (missing ones included) is stringified before the split, so both
lists are non-empty and the `min` is at least 1; the expansion never
drops a source row. -/
theorem C10_no_source_row_dropped (df : DF) (hPD : "PRODUCT DESCRIPTION" ∈ df.cols)
    (hHS : "HSCODE" ∈ df.cols) :
    step2 df = .ok (expandDF df) ∧
    df.rows.length ≤ (expandDF df).rows.length ∧
    (∀ r : Row, 1 ≤ (expandRow r).length) ∧
    (∀ v : Val, splitCell v ≠ []) := by
  refine ⟨step2_ok df hPD hHS, ?_, fun r => expandRow_length_pos r,
    fun v => splitCell_ne_nil v⟩
  exact length_le_flatMap df.rows

/-- C10 (witness): a row whose two list cells are missing still yields
an Item Row (the split of `"nan"`). -/
theorem C10_no_drop_witness :
    step2 df10 = .ok (expandDF df10) ∧
    df10.rows.length ≤ (expandDF df10).rows.length ∧
    1 ≤ (expandRow default).length ∧
    splitCell Val.na ≠ [] := by
  have h := C10_no_source_row_dropped df10 (by decide) (by decide)
  exact ⟨h.1, h.2.1, h.2.2.1 default, h.2.2.2 Val.na⟩

/-- C2 (counterexample): on a shipment with total weight 1 and three
items the code stores exactly `1/3`, while rounding to 5 decimal places,
as the claim states, would store a different number.  Lines 38 and 39
contain no rounding at all. -/
theorem C2_rounding_counterexample :
    step23 df2 = .ok (redisDF (expandDF df2)) ∧
    specShipmentTotal df2 "WEIGHT" (Val.str "T1") = some 1 ∧
    specItemCount df2 (Val.str "T1") = 3 ∧
    (outRow df2 0) "WEIGHT" = Val.num (1 / 3) ∧
    roundTo 5 (1 / 3) ≠ (1 / 3 : ℚ) := by
  refine ⟨rfl, by decide, by decide, ?_, ?_⟩
  · simp +decide [outRow, redisDF, redisRows, keptRows, redisFun, expandDF, expandRow,
      expandPairs, splitCell, splitChars, astype_str, coerceRow, setCol, keyOf, redisVal,
      firstNonNa, rowsWithKey, countKey, to_numericVal, to_numeric, addQty, Val.isNa,
      Val.asNum, df2, row2, List.range, List.range.loop]
  · rw [roundTo, round_eq]
    norm_num

/-- C2 (amended): for every Item Row whose shipment has a known total,
the redistributed cell equals the shipment total divided by the item
count exactly, with no rounding (to 5 or 2 places or otherwise); a
missing total propagates as a missing value, not an error. -/
theorem C2_even_distribution_unrounded (df : DF)
    (hPD : "PRODUCT DESCRIPTION" ∈ df.cols) (hHS : "HSCODE" ∈ df.cols)
    (hTN : "Tracking Number" ∈ df.cols) (hW : "WEIGHT" ∈ df.cols)
    (hT : "TOTAL DECLARE VALUE" ∈ df.cols) (i : ℕ)
    (hi : i < (redisDF (expandDF df)).rows.length) :
    step23 df = .ok (redisDF (expandDF df)) ∧
    (∀ q : ℚ, specShipmentTotal df "WEIGHT" (keyOf (outRow df i)) = some q →
      (outRow df i) "WEIGHT" =
        Val.num (q / (specItemCount df (keyOf (outRow df i)) : ℚ))) ∧
    (specShipmentTotal df "WEIGHT" (keyOf (outRow df i)) = none →
      (outRow df i) "WEIGHT" = Val.na) ∧
    (∀ q : ℚ, specShipmentTotal df "TOTAL DECLARE VALUE" (keyOf (outRow df i)) = some q →
      (outRow df i) "TOTAL DECLARE VALUE" =
        Val.num (q / (specItemCount df (keyOf (outRow df i)) : ℚ))) ∧
    (specShipmentTotal df "TOTAL DECLARE VALUE" (keyOf (outRow df i)) = none →
      (outRow df i) "TOTAL DECLARE VALUE" = Val.na) := by
  have hcellW := redisDF_cell df i hi "WEIGHT" (Or.inl rfl) hW
  have hcellT := redisDF_cell df i hi "TOTAL DECLARE VALUE" (Or.inr rfl) hT
  refine ⟨step23_ok df hPD hHS hTN hW hT, ?_, ?_, ?_, ?_⟩
  · intro q hq
    unfold outRow at hq ⊢
    rw [hcellW, hq]
  · intro hq
    unfold outRow at hq ⊢
    rw [hcellW, hq]
  · intro q hq
    unfold outRow at hq ⊢
    rw [hcellT, hq]
  · intro hq
    unfold outRow at hq ⊢
    rw [hcellT, hq]

/-- C2 (witness): the amended claim evaluated on the one-row table with
total weight 1 and three items. -/
theorem C2_even_distribution_witness :
    step23 df2 = .ok (redisDF (expandDF df2)) ∧
    (outRow df2 0) "WEIGHT" =
      Val.num (1 / (specItemCount df2 (keyOf (outRow df2 0)) : ℚ)) := by
  have h := C2_even_distribution_unrounded df2 (by decide) (by decide) (by decide)
    (by decide) (by decide) 0 (by decide)
  exact ⟨h.1, h.2.1 1 (by decide)⟩

/-- C7: the totals the redistribution divides are the first non-missing
`WEIGHT` and `TOTAL DECLARE VALUE` seen among the pre-expansion source
rows sharing the tracking number of the row (later duplicate rows are
ignored; no summing), and a shipment with no non-missing value in a
field gets a missing total for that field. -/
theorem C7_first_seen_totals (df : DF)
    (hPD : "PRODUCT DESCRIPTION" ∈ df.cols) (hHS : "HSCODE" ∈ df.cols)
    (hTN : "Tracking Number" ∈ df.cols) (hW : "WEIGHT" ∈ df.cols)
    (hT : "TOTAL DECLARE VALUE" ∈ df.cols) (i : ℕ)
    (hi : i < (redisDF (expandDF df)).rows.length) :
    step23 df = .ok (redisDF (expandDF df)) ∧
    (outRow df i) "WEIGHT" =
      (match specShipmentTotal df "WEIGHT" (keyOf (outRow df i)) with
        | none => Val.na
        | some q => Val.num (q / (specItemCount df (keyOf (outRow df i)) : ℚ))) ∧
    (outRow df i) "TOTAL DECLARE VALUE" =
      (match specShipmentTotal df "TOTAL DECLARE VALUE" (keyOf (outRow df i)) with
        | none => Val.na
        | some q => Val.num (q / (specItemCount df (keyOf (outRow df i)) : ℚ))) := by
  refine ⟨step23_ok df hPD hHS hTN hW hT, ?_, ?_⟩
  · unfold outRow
    exact redisDF_cell df i hi "WEIGHT" (Or.inl rfl) hW
  · unfold outRow
    exact redisDF_cell df i hi "TOTAL DECLARE VALUE" (Or.inr rfl) hT

/-- C7 (witness): two source rows share tracking number `T1` with
weights 2 then 9; the totals used are first-seen 2 (not 9, not the sum
11) over the pre-expansion rows, the item count is 3, and the
all-missing declared value stays missing. -/
theorem C7_first_seen_witness :
    specShipmentTotal df7 "WEIGHT" (Val.str "T1") = some 2 ∧
    specItemCount df7 (Val.str "T1") = 3 ∧
    specShipmentTotal df7 "TOTAL DECLARE VALUE" (Val.str "T1") = none ∧
    (outRow df7 0) "WEIGHT" =
      (match specShipmentTotal df7 "WEIGHT" (keyOf (outRow df7 0)) with
        | none => Val.na
        | some q => Val.num (q / (specItemCount df7 (keyOf (outRow df7 0)) : ℚ))) ∧
    (outRow df7 0) "TOTAL DECLARE VALUE" = Val.na := by
  have h := C7_first_seen_totals df7 (by decide) (by decide) (by decide) (by decide)
    (by decide) 0 (by decide)
  refine ⟨by decide, by decide, by decide, h.2.1, ?_⟩
  have h2 := h.2.2
  rw [show specShipmentTotal df7 "TOTAL DECLARE VALUE" (keyOf (outRow df7 0)) = none
    from by decide] at h2
  exact h2

/-- C9: every Item Row of the redistributed table has `TOTAL QTY`
exactly 1, whatever the source quantity was, and the column is present
in the output (appended when absent from the input). -/
theorem C9_quantity_always_one (df : DF)
    (hPD : "PRODUCT DESCRIPTION" ∈ df.cols) (hHS : "HSCODE" ∈ df.cols)
    (hTN : "Tracking Number" ∈ df.cols) (hW : "WEIGHT" ∈ df.cols)
    (hT : "TOTAL DECLARE VALUE" ∈ df.cols) (i : ℕ)
    (hi : i < (redisDF (expandDF df)).rows.length) :
    step23 df = .ok (redisDF (expandDF df)) ∧
    "TOTAL QTY" ∈ (redisDF (expandDF df)).cols ∧
    (outRow df i) "TOTAL QTY" = Val.num 1 := by
  refine ⟨step23_ok df hPD hHS hTN hW hT, qty_mem_addQty df.cols, ?_⟩
  unfold outRow
  obtain ⟨r1, hr1, heq⟩ := redisDF_other_cell df i hi "TOTAL QTY" (by decide) (by decide)
  rw [heq]
  have hr1' : r1 ∈ df.rows.flatMap expandRow := hr1
  obtain ⟨rsrc, _, hmem⟩ := List.mem_flatMap.mp hr1'
  exact mem_expandRow_qty rsrc r1 hmem

/-- C9 (witness): the quantity invariant on the concrete one-shipment
table. -/
theorem C9_quantity_witness :
    step23 df2 = .ok (redisDF (expandDF df2)) ∧
    "TOTAL QTY" ∈ (redisDF (expandDF df2)).cols ∧
    (outRow df2 0) "TOTAL QTY" = Val.num 1 :=
  C9_quantity_always_one df2 (by decide) (by decide) (by decide) (by decide)
    (by decide) 0 (by decide)

/-- C1 (counterexample): on a table missing both `PRODUCT DESCRIPTION`
and `HSCODE`, the conversion fails with a `KeyError` carrying the single
name `PRODUCT DESCRIPTION` — there is no schema-validation error kind
that carries the list of all missing required columns. -/
theorem C1_single_name_counterexample :
    convert c1df = .error (.keyError "PRODUCT DESCRIPTION") ∧
    "PRODUCT DESCRIPTION" ∉ c1df.cols ∧
    "HSCODE" ∉ c1df.cols :=
  ⟨rfl, by decide, by decide⟩

/-- C1 (amended): if any of the three required columns is absent, the
conversion fails with a column-lookup `KeyError` naming the first
missing one in access order (`PRODUCT DESCRIPTION`, then `HSCODE`, then
`Tracking Number`) — a single name, not the list — and no result table
is produced. -/
theorem C1_missing_required_column_fails (df : DF) (c : String)
    (h : firstMissingRequired df.cols = some c) :
    convert df = .error (.keyError c) := by
  unfold firstMissingRequired at h
  by_cases hPD : "PRODUCT DESCRIPTION" ∈ df.cols
  · rw [if_neg (not_not_intro hPD)] at h
    by_cases hHS : "HSCODE" ∈ df.cols
    · rw [if_neg (not_not_intro hHS)] at h
      by_cases hTN : "Tracking Number" ∈ df.cols
      · rw [if_neg (not_not_intro hTN)] at h
        cases h
      · rw [if_pos hTN] at h
        cases h
        show (step2 df >>= step3) >>= step4 = _
        rw [step2_ok df hPD hHS]
        have h3 : step3 (expandDF df) = .error (.keyError "Tracking Number") := by
          unfold step3
          have : "Tracking Number" ∉ (expandDF df).cols :=
            not_mem_addQty df.cols _ (by decide) hTN
          rw [if_pos this]
        show (step3 (expandDF df)) >>= step4 = _
        rw [h3]
        rfl
    · rw [if_pos hHS] at h
      cases h
      have h2 : step2 df = .error (.keyError "HSCODE") := by
        unfold step2
        rw [if_neg (not_not_intro hPD), if_pos hHS]
      show (step2 df >>= step3) >>= step4 = _
      rw [h2]
      rfl
  · rw [if_pos hPD] at h
    cases h
    have h2 : step2 df = .error (.keyError "PRODUCT DESCRIPTION") := by
      unfold step2
      rw [if_pos hPD]
    show (step2 df >>= step3) >>= step4 = _
    rw [h2]
    rfl

/-- C1 (witness): the amended claim on a table missing only `HSCODE`. -/
theorem C1_missing_column_witness :
    convert c1wdf = .error (.keyError "HSCODE") :=
  C1_missing_required_column_fails c1wdf "HSCODE" (by decide)

/-- C5 (the claim is the intent; the code slips): with the three
required columns present but `WEIGHT` entirely absent, the guarded
coercion loop of lines 33 to 35 skips the column, yet line 38 selects
`df_expanded.groupby(...)["WEIGHT"]` unconditionally and raises
`KeyError` — the redistribution is not a no-op for absent numeric
columns; likewise line 39 for `TOTAL DECLARE VALUE`. -/
theorem C5_absent_numeric_column_raises :
    step23 c5df = .error (.keyError "WEIGHT") ∧
    convert c5df = .error (.keyError "WEIGHT") ∧
    "WEIGHT" ∉ c5df.cols ∧
    "Tracking Number" ∈ c5df.cols ∧
    "PRODUCT DESCRIPTION" ∈ c5df.cols ∧
    "HSCODE" ∈ c5df.cols ∧
    step23 c5df2 = .error (.keyError "TOTAL DECLARE VALUE") ∧
    "TOTAL DECLARE VALUE" ∉ c5df2.cols ∧
    "WEIGHT" ∈ c5df2.cols :=
  ⟨rfl, rfl, by decide, by decide, by decide, by decide, rfl, by decide, by decide⟩

/-- C8: the template projection emits one output row per input row over
the fixed destination column list; mapped columns copy their source
column, the structural columns get the literal 1, every other unmapped
column gets the empty string, and the sender-region column is the
two-stage city-to-region-to-abbreviation lookup with a missing result
(not an error) when either lookup misses. -/
theorem C8_template_projection (df : DF) (h : firstMissingSrc df.cols = none)
    (i : ℕ) (hi : i < df.rows.length) :
    step4 df = .ok (projDF df) ∧
    (projDF df).cols = template_cols ∧
    (projDF df).rows.length = df.rows.length ∧
    templateRow df i = projectRow (srcRow df i) ∧
    (∀ c s, col_map.lookup c = some s → templateRow df i c = srcRow df i s) ∧
    (∀ c, c ∈ structuralCols → templateRow df i c = Val.num 1) ∧
    (∀ c, c ∈ template_cols → col_map.lookup c = none → c ∉ structuralCols →
      c ≠ "sender_state" → templateRow df i c = Val.str "") ∧
    templateRow df i "sender_state" =
      mapDict province_abbr (mapDict city_to_province (srcRow df i "CITY NAME SHIPPER")) ∧
    (∀ s, srcRow df i "CITY NAME SHIPPER" = Val.str s → city_to_province.lookup s = none →
      templateRow df i "sender_state" = Val.na) ∧
    (∀ s t, srcRow df i "CITY NAME SHIPPER" = Val.str s →
      city_to_province.lookup s = some t → province_abbr.lookup t = none →
      templateRow df i "sender_state" = Val.na) := by
  have hrow : templateRow df i = projectRow (srcRow df i) := by
    unfold templateRow projDF srcRow
    exact getD_map_of_lt _ _ _ _ default hi
  have hstep : step4 df = .ok (projDF df) := by
    unfold step4
    rw [h]
  have hsender : templateRow df i "sender_state" =
      mapDict province_abbr (mapDict city_to_province (srcRow df i "CITY NAME SHIPPER")) := by
    rw [hrow]
    unfold projectRow
    rw [if_pos rfl]
  refine ⟨hstep, rfl, by simp [projDF], hrow, ?_, ?_, ?_, hsender, ?_, ?_⟩
  · intro c s hs
    have hc : c ≠ "sender_state" := by
      intro hceq
      rw [hceq] at hs
      rw [show col_map.lookup "sender_state" = none from by decide] at hs
      cases hs
    rw [hrow]
    unfold projectRow
    rw [if_neg hc, hs]
  · intro c hc
    have hcm : col_map.lookup c = none := by
      simp only [structuralCols, List.mem_cons, List.mem_singleton] at hc
      rcases hc with rfl | rfl | rfl | rfl | rfl | rfl | h
      · decide
      · decide
      · decide
      · decide
      · decide
      · decide
      · simp at h
    have hcs : c ≠ "sender_state" := by
      intro hceq
      rw [hceq] at hc
      simp [structuralCols] at hc
    rw [hrow]
    unfold projectRow
    rw [if_neg hcs, hcm]
    simp only [hc, if_true]
  · intro c _ hnone hnstr hnss
    rw [hrow]
    unfold projectRow
    rw [if_neg hnss, hnone]
    simp only [if_neg hnstr]
  · intro s hs hnone
    rw [hsender, hs]
    simp [mapDict, hnone]
  · intro s t hs hsome hnone
    rw [hsender, hs]
    simp [mapDict, hsome, hnone]

/-- C8 (witness): the projection on a complete one-row table — the
tracking number is copied, `quantity` is the literal 1, the unmapped
`display_id` is empty, and the sender-region lookup on Shenzhen resolves
to GD. -/
theorem C8_template_witness :
    step4 df8 = .ok (projDF df8) ∧
    (projDF df8).cols = template_cols ∧
    templateRow df8 0 "tracking_number" = srcRow df8 0 "Tracking Number" ∧
    templateRow df8 0 "quantity" = Val.num 1 ∧
    templateRow df8 0 "display_id" = Val.str "" ∧
    templateRow df8 0 "sender_state" =
      mapDict province_abbr (mapDict city_to_province (srcRow df8 0 "CITY NAME SHIPPER")) ∧
    mapDict province_abbr (mapDict city_to_province (Val.str "Shenzhen")) = Val.str "GD" := by
  have h := C8_template_projection df8 (by decide) 0 (by decide)
  exact ⟨h.1, h.2.1, h.2.2.2.2.1 "tracking_number" "Tracking Number" (by decide),
    h.2.2.2.2.2.1 "quantity" (by decide),
    h.2.2.2.2.2.2.1 "display_id" (by decide) (by decide) (by decide) (by decide),
    h.2.2.2.2.2.2.2.1, by decide⟩

end Manifest
